import Mathlib

/-!
Shallow embedding of the txgbe NIC control-plane core
(drivers/net/txgbe/base/txgbe_hw.c) and proofs about its
address-filter manager, link-negotiation engine and reset orchestrator.

Machine integers are embedded as Nat; every C operation that can
overflow is mirrored with an explicit mask.  Numeric register layouts
(bit positions of named fields) live in txgbe_type.h / txgbe_regs.h,
which are not part of the sources; those are modelled as named
constants or field-level records, as documented at each definition.
-/

namespace Txgbe

/-- One 6-octet MAC address; each field is one octet (a u8 value). -/
structure MacAddr where
  b0 : Nat
  b1 : Nat
  b2 : Nat
  b3 : Nat
  b4 : Nat
  b5 : Nat
deriving DecidableEq, Repr

/-- Return statuses of the C functions (s32 status codes; the numeric
values live in the headers, only their identity matters). 0 is ok. -/
inductive Status where
  | ok
  | invalidMacAddr
  | invalidArgument
  | flashLoadingFailed
  | linkSetup
  | autonegNotComplete
  | sfpNotSupported
  | sfpSetupNotComplete
  | deviceNotSupported
deriving DecidableEq, Repr

/-- Modelled from the spec: the PSRCTL register at field granularity
(bit positions live in txgbe_regs.h, not in src): the ADHF12 hash-mode
selector field, the MCHFENA hash-filter enable bit, and the remaining
bits untouched by the embedded functions. -/
structure Psrctl where
  adhf12 : Nat
  mchfena : Bool
  rest : Nat
deriving DecidableEq, Repr

/-- Modelled from the spec: the per-slot ETHADDRH register at field
granularity (bit positions live in txgbe_regs.h, not in src): address
bytes AD4/AD5, the VLD validity bit, and the extra (pool) bits that
set_rar/clear_rar preserve. -/
structure EthAddrH where
  ad4 : Nat
  ad5 : Nat
  vld : Bool
  extra : Nat
deriving DecidableEq, Repr

/-- Hardware side effects (register writes and collaborator calls)
recorded as an event trace. -/
inductive Event where
  | setVmdq (rar : Nat) (vmdq : Nat)
  | clearVmdq (rar : Nat)
  | wrEthAddrIdx (v : Nat)
  | wrEthAddrL (slot : Nat) (v : Nat)
  | wrEthAddrH (slot : Nat) (v : EthAddrH)
  | wrPsrctl (v : Psrctl)
  | wrMcAddrTbl (i : Nat) (v : Nat)
  | wrUcAddrTbl (i : Nat) (v : Nat)
  | initRxAddrsEnter
  | clearTxPending
  | phyReset
  | hicReset (pass : Nat)
  | macRstWrite (pass : Nat)
  | resetMiscDone (pass : Nat)
  | autocWrite (v : Nat)
  | getWwn
  | rateSelect (speed : Nat)
  | setupMacLinkCall (speed : Nat)
  | flapTxLaser
  | checkLinkCall (speed : Nat) (up : Bool)
  | msfRecurse (speed : Nat)
deriving DecidableEq, Repr

/-- Media types (enum txgbe_media_type); only the constructors the
embedded functions inspect are distinguished. -/
inductive MediaType where
  | copper
  | fiber
  | fiberQsfp
  | backplane
  | virt
  | unknown
deriving DecidableEq, Repr

/-- SFP module types (enum txgbe_sfp_type); the six 1G types tested by
txgbe_get_link_capabilities_raptor, plus a catch-all. -/
inductive SfpType where
  | sfp1gCuCore0
  | sfp1gCuCore1
  | sfp1gLxCore0
  | sfp1gLxCore1
  | sfp1gSxCore0
  | sfp1gSxCore1
  | unknown
  | other
deriving DecidableEq, Repr

/-- PHY types; only txgbe_phy_qsfp_intel is distinguished (tested by
txgbe_setup_mac_link). -/
inductive PhyType where
  | qsfpIntel
  | other
deriving DecidableEq, Repr

/-- Modelled from the spec: link speed mask bits (values live in
txgbe_type.h, not in src); distinct single bits, UNKNOWN = 0. -/
def TXGBE_LINK_SPEED_UNKNOWN : Nat := 0

/-- Modelled from the spec: 10 Mb/s full-duplex speed bit. -/
def TXGBE_LINK_SPEED_10M_FULL : Nat := 1

/-- Modelled from the spec: 100 Mb/s full-duplex speed bit. -/
def TXGBE_LINK_SPEED_100M_FULL : Nat := 2

/-- Modelled from the spec: 1 Gb/s full-duplex speed bit. -/
def TXGBE_LINK_SPEED_1GB_FULL : Nat := 4

/-- Modelled from the spec: 10 Gb/s full-duplex speed bit. -/
def TXGBE_LINK_SPEED_10GB_FULL : Nat := 8

/-- The combined state of one device handle (struct txgbe_hw software
fields) together with the device registers the embedded functions
touch.  Register banks indexed by a selector are functions from the
index. -/
structure Hw where
  macAddr : MacAddr
  permAddr : MacAddr
  sanAddr : MacAddr
  san_mac_rar_index : Nat
  num_rar_entries : Nat
  mcft_size : Nat
  mc_filter_type : Nat
  mta_shadow : List Nat
  rar_used_count : Nat
  mta_in_use : Nat
  num_mc_addrs : Nat
  overflow_promisc : Nat
  adapter_stopped : Bool
  flags_double_reset : Bool
  sfp_setup_needed : Bool
  reset_disable : Bool
  lan_id : Nat
  orig_link_settings_stored : Bool
  orig_autoc : Nat
  smart_speed_active : Bool
  multispeed_fiber : Bool
  media_type : MediaType
  sfp_type : SfpType
  phy_type : PhyType
  autoneg_advertised : Nat
  autocReg : Nat
  ethAddrIdx : Nat
  ethAddrL : Nat → Nat
  ethAddrH : Nat → EthAddrH
  psrctl : Psrctl
  mcAddrTbl : Nat → Nat
  ucAddrTbl : Nat → Nat
  pools : Nat → Nat
  cfgSpeed : Nat
  pollCount : Nat

/-- Modelled from the spec: TXGBE_IS_MULTICAST macro (osdep header not
in src) - the individual/group bit is bit 0 of the first octet. -/
def TXGBE_IS_MULTICAST (a : MacAddr) : Bool :=
  a.b0 &&& 1 != 0

/-- Modelled from the spec: TXGBE_IS_BROADCAST macro (osdep header not
in src) - all six octets equal 0xFF. -/
def TXGBE_IS_BROADCAST (a : MacAddr) : Bool :=
  a.b0 == 255 && a.b1 == 255 && a.b2 == 255 && a.b3 == 255 &&
  a.b4 == 255 && a.b5 == 255

/-- txgbe_validate_mac_addr: reject multicast, broadcast and the zero
address, otherwise return 0 (ok). -/
def txgbe_validate_mac_addr (mac_addr : MacAddr) : Status :=
  if TXGBE_IS_MULTICAST mac_addr then Status.invalidMacAddr
  else if TXGBE_IS_BROADCAST mac_addr then Status.invalidMacAddr
  else if mac_addr.b0 = 0 ∧ mac_addr.b1 = 0 ∧ mac_addr.b2 = 0 ∧
          mac_addr.b3 = 0 ∧ mac_addr.b4 = 0 ∧ mac_addr.b5 = 0 then
    Status.invalidMacAddr
  else Status.ok

/-- txgbe_set_rar: bound-check the slot index, program the pool
selection, then write the address and validity bit into the selected
slot.  The ETHADDRH read that preserves the extra bits happens before
the selector register is rewritten, so it reads the previously
selected slot, exactly as the C does. -/
def txgbe_set_rar (hw : Hw) (index : Nat) (addr : MacAddr) (vmdq : Nat)
    (enable_addr : Nat) : Status × Hw × List Event :=
  let rar_entries := hw.num_rar_entries
  if index ≥ rar_entries then (Status.invalidArgument, hw, [])
  else
    let hw := { hw with pools := Function.update hw.pools index vmdq }
    let rar_low := addr.b5 ||| (addr.b4 <<< 8) ||| (addr.b3 <<< 16) ||| (addr.b2 <<< 24)
    let old := hw.ethAddrH hw.ethAddrIdx
    let rar_high : EthAddrH :=
      { ad4 := addr.b1, ad5 := addr.b0, vld := enable_addr != 0, extra := old.extra }
    let hw := { hw with
      ethAddrIdx := index,
      ethAddrL := Function.update hw.ethAddrL index rar_low,
      ethAddrH := Function.update hw.ethAddrH index rar_high }
    (Status.ok, hw,
     [Event.setVmdq index vmdq, Event.wrEthAddrIdx index,
      Event.wrEthAddrL index rar_low, Event.wrEthAddrH index rar_high])

/-- txgbe_clear_rar: bound-check the slot index, zero the address and
validity bit (preserving the extra bits), and release the slot's pool
association. -/
def txgbe_clear_rar (hw : Hw) (index : Nat) : Status × Hw × List Event :=
  let rar_entries := hw.num_rar_entries
  if index ≥ rar_entries then (Status.invalidArgument, hw, [])
  else
    let hw := { hw with ethAddrIdx := index }
    let old := hw.ethAddrH index
    let rar_high : EthAddrH := { ad4 := 0, ad5 := 0, vld := false, extra := old.extra }
    let hw := { hw with
      ethAddrL := Function.update hw.ethAddrL index 0,
      ethAddrH := Function.update hw.ethAddrH index rar_high }
    let hw := { hw with pools := Function.update hw.pools index 0 }
    (Status.ok, hw,
     [Event.wrEthAddrIdx index, Event.wrEthAddrL index 0,
      Event.wrEthAddrH index rar_high, Event.clearVmdq index])

/-- txgbe_get_mac_addr: select slot 0 and read the address held there
back into a MacAddr (byte extraction mirrors the two shift loops). -/
def txgbe_get_mac_addr (hw : Hw) : MacAddr × Hw × List Event :=
  let hw := { hw with ethAddrIdx := 0 }
  let rar_high := hw.ethAddrH 0
  let rar_low := hw.ethAddrL 0
  (⟨rar_high.ad5 % 256, rar_high.ad4 % 256,
    (rar_low >>> 24) % 256, (rar_low >>> 16) % 256,
    (rar_low >>> 8) % 256, rar_low % 256⟩,
   hw, [Event.wrEthAddrIdx 0])

/-- txgbe_mta_vector: extract the 12-bit hash vector from octets 4 and
5 of the address, window selected by mc_filter_type; an invalid
selector leaves the vector at 0. -/
def txgbe_mta_vector (mc_filter_type : Nat) (mc_addr : MacAddr) : Nat :=
  let vector :=
    match mc_filter_type with
    | 0 => (mc_addr.b4 >>> 4) ||| (mc_addr.b5 <<< 4)
    | 1 => (mc_addr.b4 >>> 3) ||| (mc_addr.b5 <<< 5)
    | 2 => (mc_addr.b4 >>> 2) ||| (mc_addr.b5 <<< 6)
    | 3 => mc_addr.b4 ||| (mc_addr.b5 <<< 8)
    | _ => 0
  vector &&& 0xFFF

/-- Set bit number v of the 128-word shadow bit array: word index is
the upper 7 bits of v, bit index the lower 5. -/
def mtaSetBit (s : List Nat) (v : Nat) : List Nat :=
  s.set ((v >>> 5) &&& 0x7F)
    (s.getD ((v >>> 5) &&& 0x7F) 0 ||| (1 <<< (v &&& 0x1F)))

/-- txgbe_set_mta: bump mta_in_use and OR the hash bit of the address
into the shadow. -/
def txgbe_set_mta (hw : Hw) (mc_addr : MacAddr) : Hw :=
  { hw with
    mta_in_use := hw.mta_in_use + 1,
    mta_shadow := mtaSetBit hw.mta_shadow (txgbe_mta_vector hw.mc_filter_type mc_addr) }

/-- txgbe_update_mc_addr_list: record the new count, zero mta_in_use,
optionally clear the shadow, hash every address into the shadow, write
every shadow word back to hardware unconditionally, and rewrite PSRCTL
(enabling hash filtering) only when at least one address was added.
The C iterator argument is embedded as the list being walked. -/
def txgbe_update_mc_addr_list (hw : Hw) (mc_addr_list : List MacAddr) (clear : Bool) :
    Status × Hw × List Event :=
  let hw := { hw with num_mc_addrs := mc_addr_list.length, mta_in_use := 0 }
  let hw := if clear then { hw with mta_shadow := List.replicate 128 0 } else hw
  let hw := mc_addr_list.foldl txgbe_set_mta hw
  let wr := (List.range hw.mcft_size).map
    (fun i => Event.wrMcAddrTbl i (hw.mta_shadow.getD i 0))
  let hw := { hw with
    mcAddrTbl := fun i => if i < hw.mcft_size then hw.mta_shadow.getD i 0 else hw.mcAddrTbl i }
  if hw.mta_in_use > 0 then
    let p : Psrctl := { adhf12 := hw.mc_filter_type, mchfena := true, rest := hw.psrctl.rest }
    (Status.ok, { hw with psrctl := p }, wr ++ [Event.wrPsrctl p])
  else
    (Status.ok, hw, wr)

/-- State effect of one iteration of the RAR-clearing loop of
txgbe_init_rx_addrs (select slot i, zero ETHADDRL and ETHADDRH). -/
def clearRarSlotState (h : Hw) (i : Nat) : Hw :=
  { h with
    ethAddrIdx := i,
    ethAddrL := Function.update h.ethAddrL i 0,
    ethAddrH := Function.update h.ethAddrH i ⟨0, 0, false, 0⟩ }

/-- State effect of one iteration of the MTA-clearing loop of
txgbe_init_rx_addrs. -/
def clearMcTblState (h : Hw) (i : Nat) : Hw :=
  { h with mcAddrTbl := Function.update h.mcAddrTbl i 0 }

/-- State effect of one iteration of the UTA-clearing loop
(txgbe_init_uta_tables). -/
def clearUcTblState (h : Hw) (i : Nat) : Hw :=
  { h with ucAddrTbl := Function.update h.ucAddrTbl i 0 }

/-- txgbe_init_rx_addrs: keep a valid held address (writing it to slot
0 via set_rar) or read the permanent address back from slot 0, clear
the pool association of slot 0, zero every other slot, clear the MTA
(shadow counter, PSRCTL hash-mode bits with the enable bit cleared,
and every hardware MTA word), then clear the UTA table. -/
def txgbe_init_rx_addrs (hw : Hw) : Status × Hw × List Event :=
  let rar_entries := hw.num_rar_entries
  let ev0 := [Event.initRxAddrsEnter]
  let step1 :=
    if txgbe_validate_mac_addr hw.macAddr = Status.invalidMacAddr then
      let r := txgbe_get_mac_addr hw
      ({ r.2.1 with macAddr := r.1 }, r.2.2)
    else
      let r := txgbe_set_rar hw 0 hw.macAddr 0 1
      (r.2.1, r.2.2)
  let hw := step1.1
  let ev1 := step1.2
  let hw := { hw with pools := Function.update hw.pools 0 0 }
  let ev2 := [Event.clearVmdq 0]
  let hw := { hw with overflow_promisc := 0, rar_used_count := 1 }
  let clearSlots := (List.range rar_entries).drop 1
  let hw := clearSlots.foldl clearRarSlotState hw
  let ev3 := clearSlots.flatMap
    (fun i => [Event.wrEthAddrIdx i, Event.wrEthAddrL i 0,
               Event.wrEthAddrH i ⟨0, 0, false, 0⟩])
  let hw := { hw with mta_in_use := 0 }
  let p : Psrctl := { adhf12 := hw.mc_filter_type, mchfena := false, rest := hw.psrctl.rest }
  let hw := { hw with psrctl := p }
  let ev4 := [Event.wrPsrctl p]
  let hw := (List.range hw.mcft_size).foldl clearMcTblState hw
  let ev5 := (List.range hw.mcft_size).map (fun i => Event.wrMcAddrTbl i 0)
  let hw := (List.range 128).foldl clearUcTblState hw
  let ev6 := (List.range 128).map (fun i => Event.wrUcAddrTbl i 0)
  (Status.ok, hw, ev0 ++ ev1 ++ ev2 ++ ev3 ++ ev4 ++ ev5 ++ ev6)

/-- Modelled from the spec: complement within a 64-bit register (the C
applies the ~ operator to u64 values). -/
def NOT64 (m : Nat) : Nat := 0xFFFFFFFFFFFFFFFF ^^^ m

/-- Modelled from the spec: AUTOC link-mode-select field mask (layout
lives in txgbe_type.h, not in src; positions chosen disjoint). -/
def TXGBE_AUTOC_LMS_MASK : Nat := 7 <<< 13

/-- Modelled from the spec: LMS value - 1G, no autonegotiation. -/
def TXGBE_AUTOC_LMS_1G_LINK_NO_AN : Nat := 0 <<< 13

/-- Modelled from the spec: LMS value - 10G, no autonegotiation. -/
def TXGBE_AUTOC_LMS_10G_LINK_NO_AN : Nat := 1 <<< 13

/-- Modelled from the spec: LMS value - 1G with autonegotiation. -/
def TXGBE_AUTOC_LMS_1G_AN : Nat := 2 <<< 13

/-- Modelled from the spec: LMS value - 10G serial. -/
def TXGBE_AUTOC_LMS_10G : Nat := 3 <<< 13

/-- Modelled from the spec: LMS value - backplane KX4/KX/KR. -/
def TXGBE_AUTOC_LMS_KX4_KX_KR : Nat := 4 <<< 13

/-- Modelled from the spec: LMS value - SGMII 1G/100M. -/
def TXGBE_AUTOC_LMS_SGMII_1G_100M : Nat := 5 <<< 13

/-- Modelled from the spec: LMS value - backplane KX4/KX/KR with 1G AN. -/
def TXGBE_AUTOC_LMS_KX4_KX_KR_1G_AN : Nat := 6 <<< 13

/-- Modelled from the spec: LMS value - backplane KX4/KX/KR + SGMII. -/
def TXGBE_AUTOC_LMS_KX4_KX_KR_SGMII : Nat := 7 <<< 13

/-- Modelled from the spec: AUTOC 1G PMA/PMD field mask. -/
def TXGBE_AUTOC_1G_PMA_PMD_MASK : Nat := 3 <<< 9

/-- Modelled from the spec: AUTOC 1G PMA/PMD value - SFI. -/
def TXGBE_AUTOC_1G_SFI : Nat := 1 <<< 9

/-- Modelled from the spec: AUTOC 10G serial PMA/PMD field mask. -/
def TXGBE_AUTOC_10GS_PMA_PMD_MASK : Nat := 3 <<< 7

/-- Modelled from the spec: AUTOC 10G serial PMA/PMD value - SFI. -/
def TXGBE_AUTOC_10GS_SFI : Nat := 1 <<< 7

/-- Modelled from the spec: AUTOC KX-supported bit (1G backplane). -/
def TXGBE_AUTOC_KX_SUPP : Nat := 1 <<< 30

/-- Modelled from the spec: AUTOC KX4-supported bit (10G backplane). -/
def TXGBE_AUTOC_KX4_SUPP : Nat := 1 <<< 31

/-- Modelled from the spec: AUTOC KR-supported bit (10G backplane). -/
def TXGBE_AUTOC_KR_SUPP : Nat := 1 <<< 32

/-- Modelled from the spec: AUTOC synthetic speed-mask field. -/
def TXGBE_AUTOC_SPEED_MASK : Nat := 0xFFFF <<< 40

/-- Modelled from the spec: place a speed mask into the AUTOC synthetic
speed field. -/
def TXGBE_AUTOC_SPEED (speed : Nat) : Nat := (speed &&& 0xFFFF) <<< 40

/-- Modelled from the spec: AUTOC autonegotiation-enable bit. -/
def TXGBE_AUTOC_AUTONEG : Nat := 1 <<< 56

/-- Modelled from the spec: PORTSTAT link-up bit. -/
def TXGBE_PORTSTAT_UP : Nat := 1 <<< 4

/-- Modelled from the spec: bounded autonegotiation poll budget
(iterations of the 100 ms link-up poll; constant lives in
txgbe_type.h, not in src). -/
def TXGBE_AUTO_NEG_TIME : Nat := 45

/-- Modelled from the spec: ILDRSTAT software-reset-done bit for LAN 0
(bit position lives in txgbe_regs.h, not in src). -/
def TXGBE_ILDRSTAT_SWRST_LAN0 : Nat := 1 <<< 9

/-- Modelled from the spec: ILDRSTAT software-reset-done bit for LAN 1. -/
def TXGBE_ILDRSTAT_SWRST_LAN1 : Nat := 1 <<< 10

/-- Environment oracle: results of the external collaborators (PHY
identification, SFP setup, management co-processor presence, EEPROM
reads) and of the device registers the embedded functions poll.  Poll
oracles take the reset pass or poll iteration as argument. -/
structure Env where
  identifyStatus : Status
  sfpSetupStatus : Status
  mngPresent : Bool
  flashBp : Nat → Bool
  ildrstat : Nat → Nat → Nat
  autocAfterReset : Nat → Nat
  sanAddrRead : MacAddr
  portstat : Nat → Nat
  msfSetupStatus : Nat → Status
  msfLinkUp : Nat → Nat → Bool

/-- The switch of txgbe_get_link_capabilities_raptor on the link-mode
field of the decoded AUTOC value; none is the default (error) arm. -/
def txgbe_get_link_caps_decode (autoc : Nat) : Option (Nat × Bool) :=
  let lms := autoc &&& TXGBE_AUTOC_LMS_MASK
  if lms = TXGBE_AUTOC_LMS_1G_LINK_NO_AN then
    some (TXGBE_LINK_SPEED_1GB_FULL, false)
  else if lms = TXGBE_AUTOC_LMS_10G_LINK_NO_AN then
    some (TXGBE_LINK_SPEED_10GB_FULL, false)
  else if lms = TXGBE_AUTOC_LMS_1G_AN then
    some (TXGBE_LINK_SPEED_1GB_FULL, true)
  else if lms = TXGBE_AUTOC_LMS_10G then
    some (TXGBE_LINK_SPEED_10GB_FULL, false)
  else if lms = TXGBE_AUTOC_LMS_KX4_KX_KR ∨ lms = TXGBE_AUTOC_LMS_KX4_KX_KR_1G_AN then
    let s := TXGBE_LINK_SPEED_UNKNOWN
    let s := if autoc &&& TXGBE_AUTOC_KR_SUPP ≠ 0 then s ||| TXGBE_LINK_SPEED_10GB_FULL else s
    let s := if autoc &&& TXGBE_AUTOC_KX4_SUPP ≠ 0 then s ||| TXGBE_LINK_SPEED_10GB_FULL else s
    let s := if autoc &&& TXGBE_AUTOC_KX_SUPP ≠ 0 then s ||| TXGBE_LINK_SPEED_1GB_FULL else s
    some (s, true)
  else if lms = TXGBE_AUTOC_LMS_KX4_KX_KR_SGMII then
    let s := TXGBE_LINK_SPEED_100M_FULL
    let s := if autoc &&& TXGBE_AUTOC_KR_SUPP ≠ 0 then s ||| TXGBE_LINK_SPEED_10GB_FULL else s
    let s := if autoc &&& TXGBE_AUTOC_KX4_SUPP ≠ 0 then s ||| TXGBE_LINK_SPEED_10GB_FULL else s
    let s := if autoc &&& TXGBE_AUTOC_KX_SUPP ≠ 0 then s ||| TXGBE_LINK_SPEED_1GB_FULL else s
    some (s, true)
  else if lms = TXGBE_AUTOC_LMS_SGMII_1G_100M then
    some (TXGBE_LINK_SPEED_1GB_FULL ||| TXGBE_LINK_SPEED_100M_FULL |||
          TXGBE_LINK_SPEED_10M_FULL, false)
  else none

/-- txgbe_get_link_capabilities_raptor: 1G SFP modules report fixed 1G
capability; otherwise decode the stored (or current) AUTOC value's
link-mode field; multispeed fiber widens the result to 10G+1G.  On an
unrecognized link mode the C returns TXGBE_ERR_LINK_SETUP leaving the
output parameters at the caller's initial values (0, false). -/
def txgbe_get_link_capabilities_raptor (hw : Hw) : Status × Nat × Bool :=
  if hw.sfp_type = SfpType.sfp1gCuCore0 ∨ hw.sfp_type = SfpType.sfp1gCuCore1 ∨
     hw.sfp_type = SfpType.sfp1gLxCore0 ∨ hw.sfp_type = SfpType.sfp1gLxCore1 ∨
     hw.sfp_type = SfpType.sfp1gSxCore0 ∨ hw.sfp_type = SfpType.sfp1gSxCore1 then
    (Status.ok, TXGBE_LINK_SPEED_1GB_FULL, true)
  else
    match txgbe_get_link_caps_decode
        (if hw.orig_link_settings_stored then hw.orig_autoc else hw.autocReg) with
    | none => (Status.linkSetup, 0, false)
    | some (s, an) =>
      if hw.multispeed_fiber then
        let s := s ||| TXGBE_LINK_SPEED_10GB_FULL ||| TXGBE_LINK_SPEED_1GB_FULL
        if hw.media_type = MediaType.fiberQsfp then (Status.ok, s, false)
        else (Status.ok, s, true)
      else (Status.ok, s, an)

/-- The AUTOC value computed by txgbe_setup_mac_link before the speed
field patch: the minimal register delta expressing the requested speed
within the current mode family (backplane KX/KX4/KR bit flags, or the
SFI 1G/10G mode switch); unchanged when no branch applies. -/
def txgbe_setup_mac_link_compute_autoc (autoc orig_autoc speed : Nat)
    (smart_speed_active : Bool) (autoneg : Bool) (qsfp_intel : Bool) : Nat :=
  let pma_pmd_10gs := autoc &&& TXGBE_AUTOC_10GS_PMA_PMD_MASK
  let link_mode := autoc &&& TXGBE_AUTOC_LMS_MASK
  let pma_pmd_1g := autoc &&& TXGBE_AUTOC_1G_PMA_PMD_MASK
  if link_mode = TXGBE_AUTOC_LMS_KX4_KX_KR ∨
     link_mode = TXGBE_AUTOC_LMS_KX4_KX_KR_1G_AN ∨
     link_mode = TXGBE_AUTOC_LMS_KX4_KX_KR_SGMII then
    let a := autoc &&& NOT64 (TXGBE_AUTOC_KX_SUPP ||| TXGBE_AUTOC_KX4_SUPP ||| TXGBE_AUTOC_KR_SUPP)
    let a :=
      if speed &&& TXGBE_LINK_SPEED_10GB_FULL ≠ 0 then
        let a := if orig_autoc &&& TXGBE_AUTOC_KX4_SUPP ≠ 0 then a ||| TXGBE_AUTOC_KX4_SUPP else a
        if orig_autoc &&& TXGBE_AUTOC_KR_SUPP ≠ 0 ∧ ¬smart_speed_active then
          a ||| TXGBE_AUTOC_KR_SUPP
        else a
      else a
    if speed &&& TXGBE_LINK_SPEED_1GB_FULL ≠ 0 then a ||| TXGBE_AUTOC_KX_SUPP else a
  else if pma_pmd_1g = TXGBE_AUTOC_1G_SFI ∧
          (link_mode = TXGBE_AUTOC_LMS_1G_LINK_NO_AN ∨ link_mode = TXGBE_AUTOC_LMS_1G_AN) then
    if speed = TXGBE_LINK_SPEED_10GB_FULL ∧ pma_pmd_10gs = TXGBE_AUTOC_10GS_SFI then
      (autoc &&& NOT64 TXGBE_AUTOC_LMS_MASK) ||| TXGBE_AUTOC_LMS_10G
    else autoc
  else if pma_pmd_10gs = TXGBE_AUTOC_10GS_SFI ∧ link_mode = TXGBE_AUTOC_LMS_10G then
    if speed = TXGBE_LINK_SPEED_1GB_FULL ∧ pma_pmd_1g = TXGBE_AUTOC_1G_SFI then
      let a := autoc &&& NOT64 TXGBE_AUTOC_LMS_MASK
      if autoneg ∨ qsfp_intel then a ||| TXGBE_AUTOC_LMS_1G_AN
      else a ||| TXGBE_AUTOC_LMS_1G_LINK_NO_AN
    else autoc
  else autoc

/-- txgbe_setup_mac_link: mask the requested speed against capability,
compute the minimal AUTOC delta, skip the write when no change is
needed, otherwise write once and - only for backplane link modes with
wait requested - poll PORTSTAT for link-up, returning
AutonegIncomplete when the bounded poll is exhausted. -/
def txgbe_setup_mac_link (env : Env) (hw : Hw) (speed : Nat)
    (autoneg_wait_to_complete : Bool) : Status × Hw × List Event :=
  let autoc := hw.autocReg
  let link_mode := autoc &&& TXGBE_AUTOC_LMS_MASK
  let current_autoc := autoc
  let r := txgbe_get_link_capabilities_raptor hw
  if r.1 ≠ Status.ok then (r.1, hw, [])
  else
    let link_capabilities := r.2.1
    let autoneg := r.2.2
    let speed := speed &&& link_capabilities
    if speed = TXGBE_LINK_SPEED_UNKNOWN then (Status.linkSetup, hw, [])
    else
      let orig_autoc := if hw.orig_link_settings_stored then hw.orig_autoc else autoc
      let autoc2 := txgbe_setup_mac_link_compute_autoc autoc orig_autoc speed
        hw.smart_speed_active autoneg (hw.phy_type = PhyType.qsfpIntel)
      if autoc2 = current_autoc then (Status.ok, hw, [])
      else
        let autoc3 := (autoc2 &&& NOT64 TXGBE_AUTOC_SPEED_MASK) ||| TXGBE_AUTOC_SPEED speed |||
                      (if autoneg then TXGBE_AUTOC_AUTONEG else 0)
        let hw := { hw with autocReg := autoc3 }
        let status :=
          if autoneg_wait_to_complete ∧
             (link_mode = TXGBE_AUTOC_LMS_KX4_KX_KR ∨
              link_mode = TXGBE_AUTOC_LMS_KX4_KX_KR_1G_AN ∨
              link_mode = TXGBE_AUTOC_LMS_KX4_KX_KR_SGMII) then
            match (List.range TXGBE_AUTO_NEG_TIME).find?
                (fun i => env.portstat i &&& TXGBE_PORTSTAT_UP != 0) with
            | some _ => Status.ok
            | none => Status.autonegNotComplete
          else Status.ok
        (status, hw, [Event.autocWrite autoc3])

/-- txgbe_check_flash_load: when flash is present (SPISTAT BPFLASH bit
clear) poll ILDRSTAT up to 10 times for the check bit to clear; report
FlashLoadTimeout when all 10 polls still show the bit set. -/
def txgbe_check_flash_load (env : Env) (pass : Nat) (check_bit : Nat) : Status :=
  if env.flashBp pass then Status.ok
  else
    match (List.range 10).find? (fun i => env.ildrstat pass i &&& check_bit == 0) with
    | some _ => Status.ok
    | none => Status.flashLoadingFailed

/-- txgbe_stop_hw: sets adapter_stopped and disables queues/interrupts
(register writes outside the tracked state); always returns 0 in the
source. -/
def txgbe_stop_hw (hw : Hw) : Status × Hw :=
  (Status.ok, { hw with adapter_stopped := true })

/-- One pass of the mac_reset_top goto loop of txgbe_reset_hw: issue
the reset through the management co-processor or the RST register,
reprogram the post-reset defaults (txgbe_reset_misc; registers outside
the tracked state), and poll the flash-load indicator for this LAN.
Modelled from the spec: the reset reloads the AUTOC register view; the
post-reset value is supplied by the environment (hardware behavior). -/
def txgbe_mac_reset_top (env : Env) (pass : Nat) (hw : Hw) : Status × Hw × List Event :=
  let ev := if env.mngPresent then [Event.hicReset pass] else [Event.macRstWrite pass]
  let ev := ev ++ [Event.resetMiscDone pass]
  let hw := { hw with autocReg := env.autocAfterReset pass }
  let status :=
    if hw.lan_id = 0 then txgbe_check_flash_load env pass TXGBE_ILDRSTAT_SWRST_LAN0
    else txgbe_check_flash_load env pass TXGBE_ILDRSTAT_SWRST_LAN1
  (status, hw, ev)

/-- The part of txgbe_reset_hw after the core reset loop: capture the
original AUTOC on the first-ever reset (writing it straight back),
otherwise set orig_autoc to the pre-reset read; then store the
permanent address, reinitialize the receive address table, and program
a valid SAN address into the reserved last slot.  autoc is the value
read from the register before the reset was issued. -/
def txgbe_reset_hw_tail (env : Env) (autoc : Nat) (hw : Hw) : Status × Hw × List Event :=
  let stepA :=
    if ¬hw.orig_link_settings_stored then
      let v := hw.autocReg
      let hw := { hw with orig_autoc := v, autocReg := v,
                          orig_link_settings_stored := true }
      (hw, [Event.autocWrite v])
    else
      ({ hw with orig_autoc := autoc }, ([] : List Event))
  let hw := stepA.1
  let ev := stepA.2
  let rp := txgbe_get_mac_addr hw
  let hw := { rp.2.1 with permAddr := rp.1 }
  let ev := ev ++ rp.2.2
  let hw := { hw with num_rar_entries := 128 }
  let ri := txgbe_init_rx_addrs hw
  let hw := ri.2.1
  let ev := ev ++ ri.2.2
  let hw := { hw with sanAddr := env.sanAddrRead }
  let stepB :=
    if txgbe_validate_mac_addr hw.sanAddr = Status.ok then
      let hw := { hw with san_mac_rar_index := hw.num_rar_entries - 1 }
      let rs := txgbe_set_rar hw hw.san_mac_rar_index hw.sanAddr 0 1
      let hw := rs.2.1
      let hw := { hw with pools := Function.update hw.pools hw.san_mac_rar_index 0 }
      let ev := ev ++ rs.2.2 ++ [Event.clearVmdq hw.san_mac_rar_index]
      let hw := { hw with num_rar_entries := hw.num_rar_entries - 1 }
      (hw, ev)
    else (hw, ev)
  (Status.ok, stepB.1, stepB.2 ++ [Event.getWwn])

/-- txgbe_reset_hw: stop the adapter, flush pending Tx, identify the
PHY (SFP-not-supported short-circuits), optionally set up the SFP
module and reset the PHY, remember AUTOC, run the core reset loop (the
goto repeats exactly once more when the double-reset flag was set; the
loop body never sets the flag, so the unrolled form below is exact),
then capture or update the original AUTOC value, store the permanent
address, reinitialize the receive address table, and program a valid
SAN address into the last slot. -/
def txgbe_reset_hw (env : Env) (hw : Hw) : Status × Hw × List Event :=
  let r0 := txgbe_stop_hw hw
  if r0.1 ≠ Status.ok then (r0.1, r0.2, [])
  else
    let hw := r0.2
    let ev := [Event.clearTxPending]
    let status := env.identifyStatus
    if status = Status.sfpNotSupported then (status, hw, ev)
    else
      let step :=
        if hw.sfp_setup_needed then (env.sfpSetupStatus, { hw with sfp_setup_needed := false })
        else (status, hw)
      let status := step.1
      let hw := step.2
      if status = Status.sfpNotSupported then (status, hw, ev)
      else
        let ev := ev ++ (if ¬hw.reset_disable then [Event.phyReset] else [])
        let autoc := hw.autocReg
        let r1 := txgbe_mac_reset_top env 0 hw
        let ev := ev ++ r1.2.2
        if r1.1 ≠ Status.ok then (r1.1, r1.2.1, ev)
        else
          let hw := r1.2.1
          let cont : Status × Hw × List Event :=
            if hw.flags_double_reset then
              let hw := { hw with flags_double_reset := false }
              txgbe_mac_reset_top env 1 hw
            else (Status.ok, hw, [])
          let ev := ev ++ cont.2.2
          if cont.1 ≠ Status.ok then (cont.1, cont.2.1, ev)
          else
            let t := txgbe_reset_hw_tail env autoc cont.2.1
            (t.1, t.2.1, ev ++ t.2.2)

/-- The `out:` label of txgbe_setup_mac_link_multispeed_fiber: record
in autoneg_advertised exactly the 10G/1G bits of the (capability-
masked) requested speed, and return the threaded status. -/
def msfOut (hw : Hw) (speed : Nat) (status : Status) (ev : List Event) :
    Status × Hw × List Event :=
  let adv := 0
  let adv := if speed &&& TXGBE_LINK_SPEED_10GB_FULL ≠ 0 then
      adv ||| TXGBE_LINK_SPEED_10GB_FULL else adv
  let adv := if speed &&& TXGBE_LINK_SPEED_1GB_FULL ≠ 0 then
      adv ||| TXGBE_LINK_SPEED_1GB_FULL else adv
  (status, { hw with autoneg_advertised := adv }, ev)

/-- One hw->mac.check_link call as seen by the multispeed engine: the
link-up answer comes from the device oracle as a function of the
currently programmed speed and a running poll counter
(txgbe_check_mac_link always returns status 0 in the source). -/
def msfCheckLink (env : Env) (hw : Hw) : Bool × Hw × List Event :=
  let up := env.msfLinkUp hw.cfgSpeed hw.pollCount
  (up, { hw with pollCount := hw.pollCount + 1 }, [Event.checkLinkCall hw.cfgSpeed up])

/-- The bounded link-up poll of the 10G attempt (up to n check_link
calls, stopping at the first link-up answer). -/
def msfPoll (env : Env) : Nat → Hw → Bool × Hw × List Event
  | 0, hw => (false, hw, [])
  | n + 1, hw =>
    let c := msfCheckLink env hw
    if c.1 then (true, c.2.1, c.2.2)
    else
      let rest := msfPoll env n c.2.1
      (rest.1, rest.2.1, c.2.2 ++ rest.2.2)

/-- txgbe_setup_mac_link_multispeed_fiber, with its single recursive
fallback call bounded by an explicit depth argument.  The calls that
go through the capability table (hw->mac.setup_mac_link,
hw->mac.set_rate_select_speed, hw->mac.flap_tx_laser,
hw->mac.check_link) are modelled as environment oracles at the call
boundary; setup_mac_link records the requested speed in the device
model.  The Sum value distinguishes a finished result (an early return
or a goto out) from fall-through state. -/
def msfAux (env : Env) (depth : Nat) (hw : Hw) (speedReq : Nat) (wait : Bool) :
    Status × Hw × List Event :=
  let rcaps := txgbe_get_link_capabilities_raptor hw
  if rcaps.1 ≠ Status.ok then (rcaps.1, hw, [])
  else
    let speed := speedReq &&& rcaps.2.1
    let a10 : (Status × Hw × List Event) ⊕ (Hw × List Event × Nat × Nat) :=
      if speed &&& TXGBE_LINK_SPEED_10GB_FULL ≠ 0 then
        let ev := if hw.media_type = MediaType.fiber then
            [Event.rateSelect TXGBE_LINK_SPEED_10GB_FULL] else []
        let st := env.msfSetupStatus TXGBE_LINK_SPEED_10GB_FULL
        let hw := { hw with cfgSpeed := TXGBE_LINK_SPEED_10GB_FULL }
        let ev := ev ++ [Event.setupMacLinkCall TXGBE_LINK_SPEED_10GB_FULL]
        if st ≠ Status.ok then Sum.inl (st, hw, ev)
        else
          let ev := ev ++ [Event.flapTxLaser]
          let p := msfPoll env 5 hw
          if p.1 then Sum.inl (msfOut p.2.1 speed Status.ok (ev ++ p.2.2))
          else Sum.inr (p.2.1, ev ++ p.2.2, 1, TXGBE_LINK_SPEED_10GB_FULL)
      else Sum.inr (hw, [], 0, TXGBE_LINK_SPEED_UNKNOWN)
    match a10 with
    | Sum.inl r => r
    | Sum.inr (hw, ev, speedcnt, highest) =>
      let a1 : (Status × Hw × List Event) ⊕ (Hw × List Event × Nat × Nat) :=
        if speed &&& TXGBE_LINK_SPEED_1GB_FULL ≠ 0 then
          let speedcnt := speedcnt + 1
          let highest := if highest = TXGBE_LINK_SPEED_UNKNOWN then
              TXGBE_LINK_SPEED_1GB_FULL else highest
          let ev := ev ++ (if hw.media_type = MediaType.fiber then
              [Event.rateSelect TXGBE_LINK_SPEED_1GB_FULL] else [])
          let st := env.msfSetupStatus TXGBE_LINK_SPEED_1GB_FULL
          let hw := { hw with cfgSpeed := TXGBE_LINK_SPEED_1GB_FULL }
          let ev := ev ++ [Event.setupMacLinkCall TXGBE_LINK_SPEED_1GB_FULL]
          if st ≠ Status.ok then Sum.inl (st, hw, ev)
          else
            let ev := ev ++ [Event.flapTxLaser]
            let c := msfCheckLink env hw
            if c.1 then Sum.inl (msfOut c.2.1 speed Status.ok (ev ++ c.2.2))
            else Sum.inr (c.2.1, ev ++ c.2.2, speedcnt, highest)
        else Sum.inr (hw, ev, speedcnt, highest)
      match a1 with
      | Sum.inl r => r
      | Sum.inr (hw, ev, speedcnt, highest) =>
        if speedcnt > 1 then
          match depth with
          | 0 => msfOut hw speed Status.ok ev
          | d + 1 =>
            let r := msfAux env d hw highest wait
            msfOut r.2.1 speed r.1 (ev ++ [Event.msfRecurse highest] ++ r.2.2)
        else msfOut hw speed Status.ok ev

/-- txgbe_setup_mac_link_multispeed_fiber: entry point.  Depth 2
strictly exceeds the dynamic recursion depth: the recursive call
passes a single speed bit, for which at most one attempt runs and the
recursion guard speedcnt > 1 cannot hold again. -/
def txgbe_setup_mac_link_multispeed_fiber (env : Env) (hw : Hw) (speed : Nat)
    (wait : Bool) : Status × Hw × List Event :=
  msfAux env 2 hw speed wait

/-- Event classifier: a hardware write of an ETHADDRL/ETHADDRH slot
register (an address write to the slot table). -/
def isEthAddrWrite : Event → Bool
  | Event.wrEthAddrL _ _ => true
  | Event.wrEthAddrH _ _ => true
  | _ => false

/-- Event classifier: an address write to slot 0. -/
def isSlot0AddrWrite : Event → Bool
  | Event.wrEthAddrL 0 _ => true
  | Event.wrEthAddrH 0 _ => true
  | _ => false

/-- Event classifier: a write of the AUTOC register view. -/
def isAutocWrite : Event → Bool
  | Event.autocWrite _ => true
  | _ => false

/-- Event classifier: one execution of the core mac_reset_top loop
body (reset issued directly or through the management channel). -/
def isResetIssue : Event → Bool
  | Event.hicReset _ => true
  | Event.macRstWrite _ => true
  | _ => false

/-- Number of executions of the core reset loop body in a trace. -/
def resetPassCount (ev : List Event) : Nat :=
  ev.countP isResetIssue

/-- Shadow effect of hashing a list of addresses in order (the foldl
of txgbe_set_mta projected to the mta_shadow component). -/
def mtaApply (ft : Nat) (l : List MacAddr) (s : List Nat) : List Nat :=
  match l with
  | [] => s
  | a :: l => mtaApply ft l (mtaSetBit s (txgbe_mta_vector ft a))

/-- The OR of all hash bits a list of addresses contributes to shadow
word i. -/
def mtaHashOr (ft : Nat) (l : List MacAddr) (i : Nat) : Nat :=
  match l with
  | [] => 0
  | a :: l =>
    (if (txgbe_mta_vector ft a >>> 5) &&& 0x7F = i then
      1 <<< (txgbe_mta_vector ft a &&& 0x1F) else 0) ||| mtaHashOr ft l i

/-- A neutral concrete device handle used by witnesses and
counterexamples. -/
def hw0 : Hw :=
  { macAddr := ⟨0, 0, 0, 0, 0, 0⟩
    permAddr := ⟨0, 0, 0, 0, 0, 0⟩
    sanAddr := ⟨0, 0, 0, 0, 0, 0⟩
    san_mac_rar_index := 0
    num_rar_entries := 128
    mcft_size := 128
    mc_filter_type := 0
    mta_shadow := List.replicate 128 0
    rar_used_count := 1
    mta_in_use := 0
    num_mc_addrs := 0
    overflow_promisc := 0
    adapter_stopped := false
    flags_double_reset := false
    sfp_setup_needed := false
    reset_disable := false
    lan_id := 0
    orig_link_settings_stored := false
    orig_autoc := 0
    smart_speed_active := false
    multispeed_fiber := false
    media_type := MediaType.fiber
    sfp_type := SfpType.unknown
    phy_type := PhyType.other
    autoneg_advertised := 0
    autocReg := 0
    ethAddrIdx := 0
    ethAddrL := fun _ => 0
    ethAddrH := fun _ => ⟨0, 0, false, 0⟩
    psrctl := ⟨0, false, 0⟩
    mcAddrTbl := fun _ => 0
    ucAddrTbl := fun _ => 0
    pools := fun _ => 0
    cfgSpeed := 0
    pollCount := 0 }

/-- A neutral concrete environment used by witnesses and
counterexamples. -/
def env0 : Env :=
  { identifyStatus := Status.ok
    sfpSetupStatus := Status.ok
    mngPresent := false
    flashBp := fun _ => false
    ildrstat := fun _ _ => 0
    autocAfterReset := fun _ => 0
    sanAddrRead := ⟨0, 0, 0, 0, 0, 0⟩
    portstat := fun _ => 0
    msfSetupStatus := fun _ => Status.ok
    msfLinkUp := fun _ _ => false }

/-- A valid (locally administered, unicast, nonzero) MAC address. -/
def addrValid : MacAddr := ⟨2, 0, 0, 0, 0, 1⟩

/-- Concrete handle with a 1G SFP module: the direct engine's computed
AUTOC value equals the current register, so no write is needed. -/
def hwC8a : Hw := { hw0 with sfp_type := SfpType.sfp1gCuCore0 }

/-- Concrete backplane handle (KX4/KX/KR link mode with KX4 and KR
advertised, smart-speed active) for which the direct engine must
rewrite AUTOC and, with link never coming up, reports
AutonegIncomplete. -/
def hwC8b : Hw :=
  { hw0 with
    autocReg := TXGBE_AUTOC_LMS_KX4_KX_KR ||| TXGBE_AUTOC_KX4_SUPP ||| TXGBE_AUTOC_KR_SUPP,
    smart_speed_active := true }

/-- Concrete multispeed-fiber handle for the try-in-order scenario. -/
def hwC6 : Hw := { hw0 with multispeed_fiber := true }

/-- Concrete environment of a device that links only at 1G. -/
def envC6 : Env :=
  { env0 with msfLinkUp := fun s _ => s == TXGBE_LINK_SPEED_1GB_FULL }

/-- Concrete environment whose flash-load indicator never clears (the
ILDRSTAT check bit stays set on every poll). -/
def envStuckFlash : Env :=
  { env0 with ildrstat := fun _ _ => TXGBE_ILDRSTAT_SWRST_LAN0 ||| TXGBE_ILDRSTAT_SWRST_LAN1 }

/-- Concrete handle with the double-reset flag set. -/
def hwDouble : Hw := { hw0 with flags_double_reset := true }

/-- Concrete environment whose reset leaves the AUTOC view at 5. -/
def envC1a : Env := { env0 with autocAfterReset := fun _ => 5 }

/-- Concrete environment of a device on which the reset does not
reload the AUTOC view: after the MAC reset it still reads 6 (the value
an intervening negotiation programmed). -/
def envC1b : Env := { env0 with autocAfterReset := fun _ => 6 }

/-- C5: for every device state (hence every table size, in particular
1 and 128) and every slot index, txgbe_set_rar and txgbe_clear_rar
return the invalid-slot error exactly when the index is at least the
table size, and success exactly when it is in range. -/
theorem C5_invalid_slot_iff (hw : Hw) (index : Nat) (addr : MacAddr)
    (vmdq enable_addr : Nat) :
    ((txgbe_set_rar hw index addr vmdq enable_addr).1 = Status.invalidArgument ↔
      hw.num_rar_entries ≤ index) ∧
    ((txgbe_set_rar hw index addr vmdq enable_addr).1 = Status.ok ↔
      index < hw.num_rar_entries) ∧
    ((txgbe_clear_rar hw index).1 = Status.invalidArgument ↔
      hw.num_rar_entries ≤ index) ∧
    ((txgbe_clear_rar hw index).1 = Status.ok ↔
      index < hw.num_rar_entries) := by
  unfold txgbe_set_rar txgbe_clear_rar
  by_cases h : hw.num_rar_entries ≤ index
  · simp [h, Nat.not_lt.mpr h]
  · simp [h, Nat.not_le.mp h]

/-- C10: the hash vector is always below 4096, the derived word index
below 128 and bit index below 32, txgbe_set_mta never changes the
shadow length, and every out-of-range filter-type selector (value 4 or
more) leaves the vector at 0. -/
theorem C10_hash_vector_bounds (ft : Nat) (a : MacAddr) (hw : Hw) :
    txgbe_mta_vector ft a < 4096 ∧
    (txgbe_mta_vector ft a >>> 5) &&& 0x7F < 128 ∧
    txgbe_mta_vector ft a &&& 0x1F < 32 ∧
    (txgbe_set_mta hw a).mta_shadow.length = hw.mta_shadow.length ∧
    txgbe_mta_vector (ft + 4) a = 0 := by
  refine ⟨?_, ?_, ?_, ?_, ?_⟩
  · exact Nat.lt_of_le_of_lt (Nat.and_le_right) (by norm_num)
  · exact Nat.lt_of_le_of_lt (Nat.and_le_right) (by norm_num)
  · exact Nat.lt_of_le_of_lt (Nat.and_le_right) (by norm_num)
  · simp [txgbe_set_mta, mtaSetBit, List.length_set]
  · simp [txgbe_mta_vector]

/-- Every word of an all-zero replicated shadow reads back zero. -/
theorem getD_replicate_zero : ∀ n i : Nat, (List.replicate n (0 : Nat)).getD i 0 = 0 := by
  intro n
  induction n with
  | zero => intro i; simp
  | succ n ih =>
    intro i
    cases i with
    | zero => simp [List.replicate]
    | succ i => simp [List.replicate, ih]

/-- C2 is falsified by the code: with hash filtering previously
enabled, update_multicast with clear_existing = true and an empty list
leaves the enable bit set (the PSRCTL write is skipped entirely), so
hash filtering is not disabled. -/
theorem C2_counterexample_filter_stays_enabled :
    ({ hw0 with psrctl := ⟨0, true, 0⟩ } : Hw).psrctl.mchfena = true ∧
    (txgbe_update_mc_addr_list { hw0 with psrctl := ⟨0, true, 0⟩ } [] true).2.1.psrctl.mchfena
      = true :=
  ⟨rfl, rfl⟩

/-- C2 (amended): update_multicast with clear_existing = true and an
empty address list returns success, leaves every word of the shadow
zero, writes every hardware hash-table word with zero, and leaves the
hash-filter enable register untouched (it neither enables nor disables
hash filtering). -/
theorem C2_amended_empty_clear (hw : Hw) :
    (txgbe_update_mc_addr_list hw [] true).1 = Status.ok ∧
    (txgbe_update_mc_addr_list hw [] true).2.1.mta_shadow = List.replicate 128 0 ∧
    (txgbe_update_mc_addr_list hw [] true).2.2 =
      (List.range hw.mcft_size).map (fun i => Event.wrMcAddrTbl i 0) ∧
    (txgbe_update_mc_addr_list hw [] true).2.1.mcAddrTbl =
      (fun i => if i < hw.mcft_size then 0 else hw.mcAddrTbl i) ∧
    (txgbe_update_mc_addr_list hw [] true).2.1.psrctl = hw.psrctl := by
  refine ⟨rfl, rfl, ?_, ?_, rfl⟩
  · show (List.range hw.mcft_size).map
        (fun i => Event.wrMcAddrTbl i ((List.replicate 128 (0 : Nat)).getD i 0)) = _
    congr 1
    funext i
    rw [getD_replicate_zero]
  · show (fun i => if i < hw.mcft_size then (List.replicate 128 (0 : Nat)).getD i 0
        else hw.mcAddrTbl i) = _
    funext i
    rw [getD_replicate_zero]

/-- One mtaSetBit never changes the shadow length. -/
theorem mtaSetBit_length (s : List Nat) (v : Nat) :
    (mtaSetBit s v).length = s.length := by
  simp [mtaSetBit, List.length_set]

/-- Hashing a list of addresses never changes the shadow length. -/
theorem mtaApply_length (ft : Nat) (l : List MacAddr) :
    ∀ s : List Nat, (mtaApply ft l s).length = s.length := by
  induction l with
  | nil => intro s; rfl
  | cons a l ih => intro s; rw [mtaApply, ih, mtaSetBit_length]

/-- Word-level characterization of one mtaSetBit on a 128-word
shadow. -/
theorem mtaSetBit_getD (s : List Nat) (v i : Nat) (hs : s.length = 128) :
    (mtaSetBit s v).getD i 0 =
      s.getD i 0 |||
        (if (v >>> 5) &&& 0x7F = i then 1 <<< (v &&& 0x1F) else 0) := by
  have hr : (v >>> 5) &&& 0x7F < 128 :=
    Nat.lt_of_le_of_lt Nat.and_le_right (by norm_num)
  by_cases hri : (v >>> 5) &&& 0x7F = i
  · subst hri
    have hilen : (v >>> 5) &&& 0x7F < s.length := by omega
    rw [mtaSetBit, if_pos rfl,
        List.getD_eq_getElem _ _ (by simpa [List.length_set] using hilen),
        List.getElem_set_self]
  · rw [mtaSetBit, if_neg hri, Nat.or_zero]
    by_cases hi : i < s.length
    · rw [List.getD_eq_getElem _ _ (by simpa [List.length_set] using hi),
          List.getElem_set_ne hri, List.getD_eq_getElem _ _ hi]
    · rw [List.getD_eq_default _ _ (by simpa [List.length_set] using Nat.not_lt.mp hi),
          List.getD_eq_default _ _ (Nat.not_lt.mp hi)]

/-- Word-level characterization of hashing a whole list on a 128-word
shadow: each word accumulates exactly the OR of the list's hash
bits. -/
theorem mtaApply_getD (ft : Nat) (l : List MacAddr) :
    ∀ s : List Nat, s.length = 128 → ∀ i : Nat,
      (mtaApply ft l s).getD i 0 = s.getD i 0 ||| mtaHashOr ft l i := by
  induction l with
  | nil => intro s _ i; simp [mtaApply, mtaHashOr]
  | cons a l ih =>
    intro s hs i
    rw [mtaApply, ih _ (by rw [mtaSetBit_length]; exact hs) i,
        mtaSetBit_getD _ _ _ hs, mtaHashOr, Nat.or_assoc]

/-- Hashing the same list twice leaves the shadow exactly where one
pass left it. -/
theorem mtaApply_idem (ft : Nat) (l : List MacAddr) (s : List Nat)
    (hs : s.length = 128) :
    mtaApply ft l (mtaApply ft l s) = mtaApply ft l s := by
  have h1 : (mtaApply ft l s).length = 128 := by rw [mtaApply_length]; exact hs
  refine List.ext_getElem (by rw [mtaApply_length]) ?_
  intro i hi1 hi2
  have hgd : ∀ (t : List Nat) (ht : i < t.length), t[i] = t.getD i 0 := by
    intro t ht; rw [List.getD_eq_getElem _ _ ht]
  rw [hgd _ hi1, hgd _ hi2, mtaApply_getD ft l _ h1 i, mtaApply_getD ft l s hs i,
      Nat.or_assoc, Nat.or_self]

/-- The shadow after a foldl of txgbe_set_mta is mtaApply, and the
filter type is untouched. -/
theorem foldl_set_mta_shadow (l : List MacAddr) :
    ∀ hw : Hw,
      (l.foldl txgbe_set_mta hw).mta_shadow =
        mtaApply hw.mc_filter_type l hw.mta_shadow ∧
      (l.foldl txgbe_set_mta hw).mc_filter_type = hw.mc_filter_type := by
  induction l with
  | nil => intro hw; exact ⟨rfl, rfl⟩
  | cons a l ih =>
    intro hw
    rw [List.foldl_cons, mtaApply]
    exact ih (txgbe_set_mta hw a)

/-- The non-clearing update leaves the shadow at mtaApply of the old
shadow, and preserves the filter type. -/
theorem update_mc_shadow_false (hw : Hw) (l : List MacAddr) :
    (txgbe_update_mc_addr_list hw l false).2.1.mta_shadow =
      mtaApply hw.mc_filter_type l hw.mta_shadow ∧
    (txgbe_update_mc_addr_list hw l false).2.1.mc_filter_type = hw.mc_filter_type := by
  obtain ⟨h1, h2⟩ := foldl_set_mta_shadow l
    { hw with num_mc_addrs := l.length, mta_in_use := 0 }
  constructor
  · unfold txgbe_update_mc_addr_list
    simp only [Bool.false_eq_true, if_false]
    split
    · exact h1
    · exact h1
  · unfold txgbe_update_mc_addr_list
    simp only [Bool.false_eq_true, if_false]
    split
    · exact h2
    · exact h2

/-- C9: for a fixed filter type the hash vector is a deterministic
function of the address, and calling update_multicast twice with the
identical list and clear_existing = false leaves the shadow bits after
the second call equal to those after the first. -/
theorem C9_idempotent (hw : Hw) (l : List MacAddr)
    (hs : hw.mta_shadow.length = 128) :
    (∀ a b : MacAddr, a = b →
      txgbe_mta_vector hw.mc_filter_type a = txgbe_mta_vector hw.mc_filter_type b) ∧
    (txgbe_update_mc_addr_list
        (txgbe_update_mc_addr_list hw l false).2.1 l false).2.1.mta_shadow =
      (txgbe_update_mc_addr_list hw l false).2.1.mta_shadow := by
  refine ⟨fun a b hab => by rw [hab], ?_⟩
  obtain ⟨h1s, h1f⟩ := update_mc_shadow_false hw l
  obtain ⟨h2s, _⟩ := update_mc_shadow_false (txgbe_update_mc_addr_list hw l false).2.1 l
  rw [h2s, h1f, h1s, mtaApply_idem hw.mc_filter_type l hw.mta_shadow hs]

/-- C9 witness: the idempotence conclusion evaluated at a concrete
handle and a one-address list. -/
theorem C9_witness :
    (txgbe_update_mc_addr_list
        (txgbe_update_mc_addr_list hw0 [addrValid] false).2.1 [addrValid] false).2.1.mta_shadow =
      (txgbe_update_mc_addr_list hw0 [addrValid] false).2.1.mta_shadow :=
  (C9_idempotent hw0 [addrValid] (by simp [hw0])).2

/-- The RAR-clearing loop touches only ethAddr registers: the held
address is preserved. -/
theorem clearRar_foldl_macAddr (L : List Nat) :
    ∀ h : Hw, (L.foldl clearRarSlotState h).macAddr = h.macAddr := by
  induction L with
  | nil => intro h; rfl
  | cons i L ih => intro h; rw [List.foldl_cons, ih]; rfl

/-- The MTA-clearing loop touches only the hardware hash table: the
held address is preserved. -/
theorem clearMc_foldl_macAddr (L : List Nat) :
    ∀ h : Hw, (L.foldl clearMcTblState h).macAddr = h.macAddr := by
  induction L with
  | nil => intro h; rfl
  | cons i L ih => intro h; rw [List.foldl_cons, ih]; rfl

/-- The UTA-clearing loop touches only the hardware unicast table: the
held address is preserved. -/
theorem clearUc_foldl_macAddr (L : List Nat) :
    ∀ h : Hw, (L.foldl clearUcTblState h).macAddr = h.macAddr := by
  induction L with
  | nil => intro h; rfl
  | cons i L ih => intro h; rw [List.foldl_cons, ih]; rfl

/-- In-range set_rar keeps the held address and produces exactly the
pool-selection plus three-register write sequence. -/
theorem set_rar_inrange_fields (hw : Hw) (index : Nat) (addr : MacAddr)
    (vmdq enable : Nat) (h : index < hw.num_rar_entries) :
    (txgbe_set_rar hw index addr vmdq enable).2.1.macAddr = hw.macAddr ∧
    (txgbe_set_rar hw index addr vmdq enable).2.2 =
      [Event.setVmdq index vmdq, Event.wrEthAddrIdx index,
       Event.wrEthAddrL index
         (addr.b5 ||| (addr.b4 <<< 8) ||| (addr.b3 <<< 16) ||| (addr.b2 <<< 24)),
       Event.wrEthAddrH index
         ⟨addr.b1, addr.b0, enable != 0, (hw.ethAddrH hw.ethAddrIdx).extra⟩] := by
  unfold txgbe_set_rar
  rw [if_neg (Nat.not_le.mpr h)]
  exact ⟨rfl, rfl⟩

/-- Every element the RAR-clearing loop visits is a nonzero slot
index. -/
theorem mem_range_drop_one {n i : Nat} (h : i ∈ (List.range n).drop 1) : i ≠ 0 := by
  cases n with
  | zero => simp [List.range_zero] at h
  | succ k =>
    rw [List.range_succ_eq_map] at h
    simp only [List.drop_succ_cons, List.drop_zero, List.mem_map] at h
    obtain ⟨j, _, hj⟩ := h
    omega

/-- C3 is falsified by the code: with a valid held address,
txgbe_init_rx_addrs does perform a hardware register write for slot 0
(set_rar writes the address into RAR0). -/
theorem C3_counterexample_slot0_written :
    txgbe_validate_mac_addr addrValid = Status.ok ∧
    Event.wrEthAddrL 0 1 ∈
      (txgbe_init_rx_addrs { hw0 with macAddr := addrValid }).2.2 := by
  constructor
  · decide
  · decide

/-- C3 (amended): when the held primary address passes validation,
rebuild keeps it in the handle and (re)writes it into hardware slot 0
via set_rar; only when the held address is invalid does it read the
permanent address out of slot 0 into the handle, and then no address
write to slot 0 is performed. -/
theorem C3_amended_slot0 (hw : Hw) :
    (txgbe_validate_mac_addr hw.macAddr ≠ Status.invalidMacAddr →
      1 ≤ hw.num_rar_entries →
      (txgbe_init_rx_addrs hw).2.1.macAddr = hw.macAddr ∧
      Event.wrEthAddrL 0
        (hw.macAddr.b5 ||| (hw.macAddr.b4 <<< 8) ||| (hw.macAddr.b3 <<< 16) |||
          (hw.macAddr.b2 <<< 24)) ∈ (txgbe_init_rx_addrs hw).2.2) ∧
    (txgbe_validate_mac_addr hw.macAddr = Status.invalidMacAddr →
      (txgbe_init_rx_addrs hw).2.1.macAddr = (txgbe_get_mac_addr hw).1 ∧
      (txgbe_init_rx_addrs hw).2.2.countP isSlot0AddrWrite = 0) := by
  constructor
  · intro hvalid hn
    obtain ⟨hs1, hs2⟩ := set_rar_inrange_fields hw 0 hw.macAddr 0 1 (by omega)
    unfold txgbe_init_rx_addrs
    rw [if_neg hvalid]
    constructor
    · simp only [clearUc_foldl_macAddr, clearMc_foldl_macAddr, clearRar_foldl_macAddr]
      exact hs1
    · simp [hs2]
  · intro hvalid
    unfold txgbe_init_rx_addrs
    rw [if_pos hvalid]
    constructor
    · simp only [clearUc_foldl_macAddr, clearMc_foldl_macAddr, clearRar_foldl_macAddr]
    · have h3 : (((List.range hw.num_rar_entries).drop 1).flatMap
          (fun i => [Event.wrEthAddrIdx i, Event.wrEthAddrL i 0,
                     Event.wrEthAddrH i ⟨0, 0, false, 0⟩])).countP isSlot0AddrWrite = 0 := by
        rw [List.countP_eq_zero]
        intro e he
        rw [List.mem_flatMap] at he
        obtain ⟨i, hiL, hei⟩ := he
        obtain ⟨k, rfl⟩ := Nat.exists_eq_succ_of_ne_zero (mem_range_drop_one hiL)
        simp only [List.mem_cons, List.mem_singleton] at hei
        rcases hei with rfl | rfl | rfl | h
        · simp [isSlot0AddrWrite]
        · simp [isSlot0AddrWrite]
        · simp [isSlot0AddrWrite]
        · simp at h
      have h5 : ∀ n : Nat, ((List.range n).map
          (fun i => Event.wrMcAddrTbl i 0)).countP isSlot0AddrWrite = 0 := by
        intro n
        rw [List.countP_eq_zero]
        intro e he
        rw [List.mem_map] at he
        obtain ⟨i, _, rfl⟩ := he
        simp [isSlot0AddrWrite]
      have h6 : ∀ n : Nat, ((List.range n).map
          (fun i => Event.wrUcAddrTbl i 0)).countP isSlot0AddrWrite = 0 := by
        intro n
        rw [List.countP_eq_zero]
        intro e he
        rw [List.mem_map] at he
        obtain ⟨i, _, rfl⟩ := he
        simp [isSlot0AddrWrite]
      have h1 : (txgbe_get_mac_addr hw).2.2 = [Event.wrEthAddrIdx 0] := rfl
      simp only [h1, List.countP_append, List.countP_cons, List.countP_nil, h3, h5, h6]
      simp [isSlot0AddrWrite]

/-- C3 witness: the amended claim applied at a concrete handle with a
valid held address, and at a concrete handle with the (invalid) zero
address. -/
theorem C3_amended_slot0_witness :
    ((txgbe_init_rx_addrs { hw0 with macAddr := addrValid }).2.1.macAddr = addrValid ∧
      Event.wrEthAddrL 0
        (addrValid.b5 ||| (addrValid.b4 <<< 8) ||| (addrValid.b3 <<< 16) |||
          (addrValid.b2 <<< 24)) ∈
        (txgbe_init_rx_addrs { hw0 with macAddr := addrValid }).2.2) ∧
    ((txgbe_init_rx_addrs hw0).2.1.macAddr = (txgbe_get_mac_addr hw0).1 ∧
      (txgbe_init_rx_addrs hw0).2.2.countP isSlot0AddrWrite = 0) :=
  ⟨(C3_amended_slot0 { hw0 with macAddr := addrValid }).1 (by decide) (by decide),
   (C3_amended_slot0 hw0).2 (by decide)⟩

/-- The capability query returns only success or the link-setup
error. -/
theorem get_link_caps_status (hw : Hw) :
    (txgbe_get_link_capabilities_raptor hw).1 = Status.ok ∨
    (txgbe_get_link_capabilities_raptor hw).1 = Status.linkSetup := by
  unfold txgbe_get_link_capabilities_raptor
  split
  · exact Or.inl rfl
  · cases txgbe_get_link_caps_decode
      (if hw.orig_link_settings_stored then hw.orig_autoc else hw.autocReg) with
    | none => exact Or.inr rfl
    | some p =>
      obtain ⟨s, an⟩ := p
      by_cases hms : hw.multispeed_fiber = true
      · by_cases hq : hw.media_type = MediaType.fiberQsfp
        · simp [hms, hq]
        · simp [hms, hq]
      · simp [hms]

/-- C8: the direct negotiation engine returns success without any
register write (state unchanged, empty trace) whenever the computed
AUTOC value already equals the current register; and it reports
AutonegIncomplete only when a write occurred, wait-for-completion was
requested, the (pre-write) link mode is a backplane KX4/KX/KR mode,
and the bounded link-up poll saw no link on any iteration. -/
theorem C8_direct_engine (env : Env) (hw : Hw) (speed : Nat) (wait : Bool) :
    ((txgbe_get_link_capabilities_raptor hw).1 = Status.ok →
     speed &&& (txgbe_get_link_capabilities_raptor hw).2.1 ≠ 0 →
     txgbe_setup_mac_link_compute_autoc hw.autocReg
        (if hw.orig_link_settings_stored then hw.orig_autoc else hw.autocReg)
        (speed &&& (txgbe_get_link_capabilities_raptor hw).2.1)
        hw.smart_speed_active (txgbe_get_link_capabilities_raptor hw).2.2
        (hw.phy_type = PhyType.qsfpIntel) = hw.autocReg →
     txgbe_setup_mac_link env hw speed wait = (Status.ok, hw, [])) ∧
    ((txgbe_setup_mac_link env hw speed wait).1 = Status.autonegNotComplete →
     (txgbe_setup_mac_link env hw speed wait).2.2 ≠ [] ∧
     wait = true ∧
     (hw.autocReg &&& TXGBE_AUTOC_LMS_MASK = TXGBE_AUTOC_LMS_KX4_KX_KR ∨
      hw.autocReg &&& TXGBE_AUTOC_LMS_MASK = TXGBE_AUTOC_LMS_KX4_KX_KR_1G_AN ∨
      hw.autocReg &&& TXGBE_AUTOC_LMS_MASK = TXGBE_AUTOC_LMS_KX4_KX_KR_SGMII) ∧
     (∀ i, i < TXGBE_AUTO_NEG_TIME → env.portstat i &&& TXGBE_PORTSTAT_UP = 0)) := by
  constructor
  · intro hok hmask heq
    unfold txgbe_setup_mac_link
    rw [if_neg (by simp [hok]), if_neg (by simpa [TXGBE_LINK_SPEED_UNKNOWN] using hmask),
        if_pos heq]
  · intro hinc
    unfold txgbe_setup_mac_link at hinc ⊢
    by_cases hok : (txgbe_get_link_capabilities_raptor hw).1 = Status.ok
    · rw [if_neg (by simp [hok])] at hinc ⊢
      by_cases hsp : speed &&& (txgbe_get_link_capabilities_raptor hw).2.1 =
          TXGBE_LINK_SPEED_UNKNOWN
      · rw [if_pos hsp] at hinc
        simp at hinc
      · rw [if_neg hsp] at hinc ⊢
        by_cases heq : txgbe_setup_mac_link_compute_autoc hw.autocReg
            (if hw.orig_link_settings_stored then hw.orig_autoc else hw.autocReg)
            (speed &&& (txgbe_get_link_capabilities_raptor hw).2.1)
            hw.smart_speed_active (txgbe_get_link_capabilities_raptor hw).2.2
            (hw.phy_type = PhyType.qsfpIntel) = hw.autocReg
        · rw [if_pos heq] at hinc
          simp at hinc
        · rw [if_neg heq] at hinc ⊢
          by_cases hwt : (wait = true) ∧
              (hw.autocReg &&& TXGBE_AUTOC_LMS_MASK = TXGBE_AUTOC_LMS_KX4_KX_KR ∨
               hw.autocReg &&& TXGBE_AUTOC_LMS_MASK = TXGBE_AUTOC_LMS_KX4_KX_KR_1G_AN ∨
               hw.autocReg &&& TXGBE_AUTOC_LMS_MASK = TXGBE_AUTOC_LMS_KX4_KX_KR_SGMII)
          · rw [if_pos hwt] at hinc
            cases hfind : (List.range TXGBE_AUTO_NEG_TIME).find?
                (fun i => env.portstat i &&& TXGBE_PORTSTAT_UP != 0) with
            | some j =>
              rw [hfind] at hinc
              simp at hinc
            | none =>
              refine ⟨by simp, hwt.1, hwt.2, ?_⟩
              intro i hi
              have := List.find?_eq_none.mp hfind i (List.mem_range.mpr hi)
              simpa using this
          · rw [if_neg hwt] at hinc
            simp at hinc
    · rw [if_pos (by simp [hok])] at hinc
      rcases get_link_caps_status hw with h | h
      · exact absurd h hok
      · rw [h] at hinc
        simp at hinc

/-- C8 witness: the no-write conclusion at a 1G-SFP handle whose
computed AUTOC equals the current value, and the AutonegIncomplete
conclusion at a backplane handle whose link never comes up. -/
theorem C8_direct_engine_witness :
    txgbe_setup_mac_link env0 hwC8a TXGBE_LINK_SPEED_1GB_FULL false = (Status.ok, hwC8a, []) ∧
    ((txgbe_setup_mac_link env0 hwC8b TXGBE_LINK_SPEED_10GB_FULL true).2.2 ≠ [] ∧
     true = true ∧
     (hwC8b.autocReg &&& TXGBE_AUTOC_LMS_MASK = TXGBE_AUTOC_LMS_KX4_KX_KR ∨
      hwC8b.autocReg &&& TXGBE_AUTOC_LMS_MASK = TXGBE_AUTOC_LMS_KX4_KX_KR_1G_AN ∨
      hwC8b.autocReg &&& TXGBE_AUTOC_LMS_MASK = TXGBE_AUTOC_LMS_KX4_KX_KR_SGMII) ∧
     (∀ i, i < TXGBE_AUTO_NEG_TIME → env0.portstat i &&& TXGBE_PORTSTAT_UP = 0)) :=
  ⟨(C8_direct_engine env0 hwC8a TXGBE_LINK_SPEED_1GB_FULL false).1
      (by decide) (by decide) (by decide),
   (C8_direct_engine env0 hwC8b TXGBE_LINK_SPEED_10GB_FULL true).2 (by decide)⟩

/-- C6: on multi-speed fiber with both 10G and 1G requested and
capable, against a device that links only at 1G, the try-in-order
engine attempts 10G first (five failed link polls), then 1G (link on
the first poll), performs no fallback recursion (the trace contains no
recursion marker), and finishes with the advertised mask recording
exactly 10G and 1G. -/
theorem C6_try_in_order (env : Env) (hw : Hw)
    (hcaps : txgbe_get_link_capabilities_raptor hw =
      (Status.ok, TXGBE_LINK_SPEED_10GB_FULL ||| TXGBE_LINK_SPEED_1GB_FULL, true))
    (hmedia : hw.media_type = MediaType.fiber)
    (hs10 : env.msfSetupStatus TXGBE_LINK_SPEED_10GB_FULL = Status.ok)
    (hs1 : env.msfSetupStatus TXGBE_LINK_SPEED_1GB_FULL = Status.ok)
    (hup10 : ∀ i, env.msfLinkUp TXGBE_LINK_SPEED_10GB_FULL i = false)
    (hup1 : ∀ i, env.msfLinkUp TXGBE_LINK_SPEED_1GB_FULL i = true) :
    (txgbe_setup_mac_link_multispeed_fiber env hw
        (TXGBE_LINK_SPEED_10GB_FULL ||| TXGBE_LINK_SPEED_1GB_FULL) true).1 = Status.ok ∧
    (txgbe_setup_mac_link_multispeed_fiber env hw
        (TXGBE_LINK_SPEED_10GB_FULL ||| TXGBE_LINK_SPEED_1GB_FULL) true).2.1.autoneg_advertised =
      TXGBE_LINK_SPEED_10GB_FULL ||| TXGBE_LINK_SPEED_1GB_FULL ∧
    (txgbe_setup_mac_link_multispeed_fiber env hw
        (TXGBE_LINK_SPEED_10GB_FULL ||| TXGBE_LINK_SPEED_1GB_FULL) true).2.2 =
      [Event.rateSelect TXGBE_LINK_SPEED_10GB_FULL,
       Event.setupMacLinkCall TXGBE_LINK_SPEED_10GB_FULL,
       Event.flapTxLaser,
       Event.checkLinkCall TXGBE_LINK_SPEED_10GB_FULL false,
       Event.checkLinkCall TXGBE_LINK_SPEED_10GB_FULL false,
       Event.checkLinkCall TXGBE_LINK_SPEED_10GB_FULL false,
       Event.checkLinkCall TXGBE_LINK_SPEED_10GB_FULL false,
       Event.checkLinkCall TXGBE_LINK_SPEED_10GB_FULL false,
       Event.rateSelect TXGBE_LINK_SPEED_1GB_FULL,
       Event.setupMacLinkCall TXGBE_LINK_SPEED_1GB_FULL,
       Event.flapTxLaser,
       Event.checkLinkCall TXGBE_LINK_SPEED_1GB_FULL true] := by
  unfold txgbe_setup_mac_link_multispeed_fiber msfAux
  rw [hcaps]
  simp only [TXGBE_LINK_SPEED_10GB_FULL, TXGBE_LINK_SPEED_1GB_FULL,
             TXGBE_LINK_SPEED_UNKNOWN] at hmedia hs10 hs1 hup10 hup1 ⊢
  simp [msfPoll, msfCheckLink, msfOut, hmedia, hs10, hs1, hup10, hup1,
        TXGBE_LINK_SPEED_10GB_FULL, TXGBE_LINK_SPEED_1GB_FULL]

/-- C6 witness: the try-in-order conclusion evaluated on a concrete
multispeed-fiber handle against a device linking only at 1G. -/
theorem C6_try_in_order_witness :
    (txgbe_setup_mac_link_multispeed_fiber envC6 hwC6
        (TXGBE_LINK_SPEED_10GB_FULL ||| TXGBE_LINK_SPEED_1GB_FULL) true).1 = Status.ok ∧
    (txgbe_setup_mac_link_multispeed_fiber envC6 hwC6
        (TXGBE_LINK_SPEED_10GB_FULL ||| TXGBE_LINK_SPEED_1GB_FULL) true).2.1.autoneg_advertised =
      TXGBE_LINK_SPEED_10GB_FULL ||| TXGBE_LINK_SPEED_1GB_FULL ∧
    (txgbe_setup_mac_link_multispeed_fiber envC6 hwC6
        (TXGBE_LINK_SPEED_10GB_FULL ||| TXGBE_LINK_SPEED_1GB_FULL) true).2.2 =
      [Event.rateSelect TXGBE_LINK_SPEED_10GB_FULL,
       Event.setupMacLinkCall TXGBE_LINK_SPEED_10GB_FULL,
       Event.flapTxLaser,
       Event.checkLinkCall TXGBE_LINK_SPEED_10GB_FULL false,
       Event.checkLinkCall TXGBE_LINK_SPEED_10GB_FULL false,
       Event.checkLinkCall TXGBE_LINK_SPEED_10GB_FULL false,
       Event.checkLinkCall TXGBE_LINK_SPEED_10GB_FULL false,
       Event.checkLinkCall TXGBE_LINK_SPEED_10GB_FULL false,
       Event.rateSelect TXGBE_LINK_SPEED_1GB_FULL,
       Event.setupMacLinkCall TXGBE_LINK_SPEED_1GB_FULL,
       Event.flapTxLaser,
       Event.checkLinkCall TXGBE_LINK_SPEED_1GB_FULL true] :=
  C6_try_in_order envC6 hwC6 (by decide) (by decide) (by decide) (by decide)
    (fun _ => rfl) (fun _ => rfl)

/-- A stuck load-complete indicator (bit set on all ten polls, flash
present) makes txgbe_check_flash_load report the timeout error. -/
theorem check_flash_load_stuck (env : Env) (pass bit : Nat)
    (hbp : env.flashBp pass = false)
    (hstuck : ∀ i, i < 10 → env.ildrstat pass i &&& bit ≠ 0) :
    txgbe_check_flash_load env pass bit = Status.flashLoadingFailed := by
  unfold txgbe_check_flash_load
  rw [if_neg (by simp [hbp])]
  have hnone : (List.range 10).find? (fun i => env.ildrstat pass i &&& bit == 0) = none :=
    List.find?_eq_none.mpr
      (fun i hi => by simpa using hstuck i (List.mem_range.mp hi))
  rw [hnone]

/-- set_rar never emits a core-reset event. -/
theorem set_rar_no_resetIssue (hw : Hw) (i : Nat) (a : MacAddr) (v e : Nat) :
    (txgbe_set_rar hw i a v e).2.2.countP isResetIssue = 0 := by
  unfold txgbe_set_rar
  by_cases h : i ≥ hw.num_rar_entries <;> simp [h, isResetIssue]

/-- set_rar never changes the double-reset flag. -/
theorem set_rar_flags (hw : Hw) (i : Nat) (a : MacAddr) (v e : Nat) :
    (txgbe_set_rar hw i a v e).2.1.flags_double_reset = hw.flags_double_reset := by
  unfold txgbe_set_rar
  by_cases h : i ≥ hw.num_rar_entries <;> simp [h]

/-- The RAR-clearing loop never changes the double-reset flag. -/
theorem clearRar_foldl_flags (L : List Nat) :
    ∀ h : Hw, (L.foldl clearRarSlotState h).flags_double_reset = h.flags_double_reset := by
  induction L with
  | nil => intro h; rfl
  | cons i L ih => intro h; rw [List.foldl_cons, ih]; rfl

/-- The MTA-clearing loop never changes the double-reset flag. -/
theorem clearMc_foldl_flags (L : List Nat) :
    ∀ h : Hw, (L.foldl clearMcTblState h).flags_double_reset = h.flags_double_reset := by
  induction L with
  | nil => intro h; rfl
  | cons i L ih => intro h; rw [List.foldl_cons, ih]; rfl

/-- The UTA-clearing loop never changes the double-reset flag. -/
theorem clearUc_foldl_flags (L : List Nat) :
    ∀ h : Hw, (L.foldl clearUcTblState h).flags_double_reset = h.flags_double_reset := by
  induction L with
  | nil => intro h; rfl
  | cons i L ih => intro h; rw [List.foldl_cons, ih]; rfl

/-- The address-table reinitialization never emits a core-reset event
and never changes the double-reset flag. -/
theorem initRx_no_resetIssue (hw : Hw) :
    (txgbe_init_rx_addrs hw).2.2.countP isResetIssue = 0 ∧
    (txgbe_init_rx_addrs hw).2.1.flags_double_reset = hw.flags_double_reset := by
  have h3 : ∀ n : Nat, (((List.range n).drop 1).flatMap
      (fun i => [Event.wrEthAddrIdx i, Event.wrEthAddrL i 0,
                 Event.wrEthAddrH i ⟨0, 0, false, 0⟩])).countP isResetIssue = 0 := by
    intro n
    rw [List.countP_eq_zero]
    intro e he
    rw [List.mem_flatMap] at he
    obtain ⟨i, _, hei⟩ := he
    simp only [List.mem_cons, List.mem_singleton] at hei
    rcases hei with rfl | rfl | rfl | h
    · simp [isResetIssue]
    · simp [isResetIssue]
    · simp [isResetIssue]
    · simp at h
  have h5 : ∀ n : Nat, ((List.range n).map
      (fun i => Event.wrMcAddrTbl i 0)).countP isResetIssue = 0 := by
    intro n
    rw [List.countP_eq_zero]
    intro e he
    rw [List.mem_map] at he
    obtain ⟨i, _, rfl⟩ := he
    simp [isResetIssue]
  have h6 : ∀ n : Nat, ((List.range n).map
      (fun i => Event.wrUcAddrTbl i 0)).countP isResetIssue = 0 := by
    intro n
    rw [List.countP_eq_zero]
    intro e he
    rw [List.mem_map] at he
    obtain ⟨i, _, rfl⟩ := he
    simp [isResetIssue]
  constructor
  · unfold txgbe_init_rx_addrs
    split
    · simp only [List.countP_append, h3, h5, h6]
      rfl
    · simp only [List.countP_append, h3, h5, h6, set_rar_no_resetIssue]
      rfl
  · unfold txgbe_init_rx_addrs
    split
    · simp only [clearUc_foldl_flags, clearMc_foldl_flags, clearRar_foldl_flags]
      rfl
    · simp only [clearUc_foldl_flags, clearMc_foldl_flags, clearRar_foldl_flags]
      exact set_rar_flags hw 0 hw.macAddr 0 1

/-- txgbe_get_mac_addr's only register write is the slot selector. -/
theorem get_mac_addr_events (h : Hw) :
    (txgbe_get_mac_addr h).2.2 = [Event.wrEthAddrIdx 0] := rfl

/-- txgbe_get_mac_addr never changes the double-reset flag. -/
theorem get_mac_addr_flags (h : Hw) :
    (txgbe_get_mac_addr h).2.1.flags_double_reset = h.flags_double_reset := rfl

/-- The post-loop tail of reset issues no further core reset, returns
success, and leaves the double-reset flag alone. -/
theorem reset_tail_props (env : Env) (autoc : Nat) (hw : Hw) :
    (txgbe_reset_hw_tail env autoc hw).2.2.countP isResetIssue = 0 ∧
    (txgbe_reset_hw_tail env autoc hw).2.1.flags_double_reset = hw.flags_double_reset ∧
    (txgbe_reset_hw_tail env autoc hw).1 = Status.ok := by
  unfold txgbe_reset_hw_tail
  by_cases hst : hw.orig_link_settings_stored = true <;>
    by_cases hsan : txgbe_validate_mac_addr env.sanAddrRead = Status.ok <;>
      simp [hst, hsan, List.countP_append, set_rar_no_resetIssue, set_rar_flags,
            get_mac_addr_events, get_mac_addr_flags,
            (initRx_no_resetIssue _).1, (initRx_no_resetIssue _).2, isResetIssue]

/-- C4: if the load-from-persistent-store indicator never clears
within the 10-poll budget, reset returns the flash-load timeout error
and none of the subsequent steps execute: the original link settings
are neither captured nor restored (fields unchanged, no AUTOC write is
issued), the address slot table is not reinitialized, and no address
register (hence no SAN address) is programmed. -/
theorem C4_flash_timeout_aborts (env : Env) (hw : Hw)
    (h1 : env.identifyStatus ≠ Status.sfpNotSupported)
    (h2 : env.sfpSetupStatus ≠ Status.sfpNotSupported)
    (hbp : env.flashBp 0 = false)
    (hstuck : ∀ i, i < 10 → env.ildrstat 0 i &&&
      (if hw.lan_id = 0 then TXGBE_ILDRSTAT_SWRST_LAN0 else TXGBE_ILDRSTAT_SWRST_LAN1) ≠ 0) :
    (txgbe_reset_hw env hw).1 = Status.flashLoadingFailed ∧
    (txgbe_reset_hw env hw).2.1.orig_link_settings_stored = hw.orig_link_settings_stored ∧
    (txgbe_reset_hw env hw).2.1.orig_autoc = hw.orig_autoc ∧
    (txgbe_reset_hw env hw).2.2.countP isAutocWrite = 0 ∧
    Event.initRxAddrsEnter ∉ (txgbe_reset_hw env hw).2.2 ∧
    (txgbe_reset_hw env hw).2.2.countP isEthAddrWrite = 0 := by
  have hcf : (if hw.lan_id = 0 then txgbe_check_flash_load env 0 TXGBE_ILDRSTAT_SWRST_LAN0
      else txgbe_check_flash_load env 0 TXGBE_ILDRSTAT_SWRST_LAN1) =
      Status.flashLoadingFailed := by
    by_cases hlan : hw.lan_id = 0
    · rw [if_pos hlan]
      exact check_flash_load_stuck env 0 _ hbp (by simpa [hlan] using hstuck)
    · rw [if_neg hlan]
      exact check_flash_load_stuck env 0 _ hbp (by simpa [hlan] using hstuck)
  unfold txgbe_reset_hw txgbe_mac_reset_top txgbe_stop_hw
  by_cases hsfp : hw.sfp_setup_needed = true <;>
  by_cases hrd : hw.reset_disable = true <;>
  by_cases hmng : env.mngPresent = true <;>
    simp [hsfp, hrd, hmng, h1, h2, hcf, isAutocWrite, isEthAddrWrite, List.countP_append]

/-- C4 witness: the timeout conclusion evaluated on a concrete handle
and an environment whose indicator never clears. -/
theorem C4_flash_timeout_aborts_witness :
    (txgbe_reset_hw envStuckFlash hw0).1 = Status.flashLoadingFailed ∧
    (txgbe_reset_hw envStuckFlash hw0).2.1.orig_link_settings_stored =
      hw0.orig_link_settings_stored ∧
    (txgbe_reset_hw envStuckFlash hw0).2.1.orig_autoc = hw0.orig_autoc ∧
    (txgbe_reset_hw envStuckFlash hw0).2.2.countP isAutocWrite = 0 ∧
    Event.initRxAddrsEnter ∉ (txgbe_reset_hw envStuckFlash hw0).2.2 ∧
    (txgbe_reset_hw envStuckFlash hw0).2.2.countP isEthAddrWrite = 0 :=
  C4_flash_timeout_aborts envStuckFlash hw0 (by decide) (by decide) (by decide)
    (by
      intro i _
      norm_num [envStuckFlash, env0, hw0]
      decide)

/-- C7 is falsified at an input: with the double-reset flag set but
the first pass's flash-load poll timing out, the core reset loop
executes exactly once (not "exactly once more") and the flag is not
cleared. -/
theorem C7_counterexample_single_pass :
    hwDouble.flags_double_reset = true ∧
    resetPassCount (txgbe_reset_hw envStuckFlash hwDouble).2.2 = 1 ∧
    (txgbe_reset_hw envStuckFlash hwDouble).2.1.flags_double_reset = true ∧
    (txgbe_reset_hw envStuckFlash hwDouble).1 = Status.flashLoadingFailed := by
  refine ⟨rfl, ?_, ?_, ?_⟩ <;> decide

/-- C7 (amended): the core reset loop executes at most twice in every
reset call; and whenever the loop is reached (no SFP short-circuit)
and its first flash-load poll succeeds, it executes exactly twice with
the flag cleared when the double-reset flag was set, and exactly once
when it was clear (the flag ends false either way). -/
theorem C7_amended_reset_loop (env : Env) (hw : Hw) :
    resetPassCount (txgbe_reset_hw env hw).2.2 ≤ 2 ∧
    (env.identifyStatus ≠ Status.sfpNotSupported →
     env.sfpSetupStatus ≠ Status.sfpNotSupported →
     (if hw.lan_id = 0 then txgbe_check_flash_load env 0 TXGBE_ILDRSTAT_SWRST_LAN0
      else txgbe_check_flash_load env 0 TXGBE_ILDRSTAT_SWRST_LAN1) = Status.ok →
     resetPassCount (txgbe_reset_hw env hw).2.2 = (if hw.flags_double_reset then 2 else 1) ∧
     (txgbe_reset_hw env hw).2.1.flags_double_reset = false) := by
  unfold txgbe_reset_hw txgbe_mac_reset_top txgbe_stop_hw resetPassCount
  by_cases h1 : env.identifyStatus = Status.sfpNotSupported <;>
  by_cases hsfp : hw.sfp_setup_needed = true <;>
  by_cases h2 : env.sfpSetupStatus = Status.sfpNotSupported <;>
  by_cases hrd : hw.reset_disable = true <;>
  by_cases hmng : env.mngPresent = true <;>
  by_cases hf0 : (if hw.lan_id = 0 then txgbe_check_flash_load env 0 TXGBE_ILDRSTAT_SWRST_LAN0
      else txgbe_check_flash_load env 0 TXGBE_ILDRSTAT_SWRST_LAN1) = Status.ok <;>
  by_cases hfl : hw.flags_double_reset = true <;>
  by_cases hf1 : (if hw.lan_id = 0 then txgbe_check_flash_load env 1 TXGBE_ILDRSTAT_SWRST_LAN0
      else txgbe_check_flash_load env 1 TXGBE_ILDRSTAT_SWRST_LAN1) = Status.ok <;>
    simp [h1, hsfp, h2, hrd, hmng, hf0, hfl, hf1, List.countP_append, isResetIssue,
          (reset_tail_props _ _ _).1, (reset_tail_props _ _ _).2.1,
          resetPassCount]

/-- C7 witness: the amended exact counts evaluated at a flag-set and a
flag-clear concrete handle with a flash that loads immediately. -/
theorem C7_amended_reset_loop_witness :
    (resetPassCount (txgbe_reset_hw env0 hwDouble).2.2 =
        (if hwDouble.flags_double_reset then 2 else 1) ∧
      (txgbe_reset_hw env0 hwDouble).2.1.flags_double_reset = false) ∧
    (resetPassCount (txgbe_reset_hw env0 hw0).2.2 =
        (if hw0.flags_double_reset then 2 else 1) ∧
      (txgbe_reset_hw env0 hw0).2.1.flags_double_reset = false) :=
  ⟨(C7_amended_reset_loop env0 hwDouble).2 (by decide) (by decide) (by decide),
   (C7_amended_reset_loop env0 hw0).2 (by decide) (by decide) (by decide)⟩

set_option maxRecDepth 100000 in
/-- C1: the code does not restore the first-captured AUTOC value on a
second reset.  After a first reset (capturing 5 as the canonical
original) and an intervening negotiation that set the register to 6, a
second reset on a device whose reset leaves the AUTOC view at 6 issues
no AUTOC write at all, leaves the register at 6 (not the captured 5),
and overwrites the stored canonical value with 6 - contradicting both
the claim and the code's own comment ("Otherwise restore the stored
original values since the reset operation sets back to defaults"). -/
theorem C1_no_restore_on_second_reset :
    (txgbe_reset_hw envC1a hw0).2.1.orig_link_settings_stored = true ∧
    (txgbe_reset_hw envC1a hw0).2.1.orig_autoc = 5 ∧
    (txgbe_reset_hw envC1a hw0).2.1.autocReg = 5 ∧
    (txgbe_reset_hw envC1b
        { (txgbe_reset_hw envC1a hw0).2.1 with autocReg := 6 }).2.1.autocReg = 6 ∧
    (txgbe_reset_hw envC1b
        { (txgbe_reset_hw envC1a hw0).2.1 with autocReg := 6 }).2.1.orig_autoc = 6 ∧
    (txgbe_reset_hw envC1b
        { (txgbe_reset_hw envC1a hw0).2.1 with autocReg := 6 }).2.2.countP
      isAutocWrite = 0 := by
  refine ⟨?_, ?_, ?_, ?_, ?_, ?_⟩ <;> decide

end Txgbe
